import Mathlib

/-!
Verification of the submissions-store, reference-dataset-loader, country-view
and map-overlay logic of the WIID dashboard application (app.py).

The embedding models the two CSV-backed tables of the program.  A parsed CSV
file is a RawTable: a header row plus data rows whose cells are Option String,
with none standing for a missing value (pandas NaN: empty CSV fields are read
back as NaN, and NaN cells are written out as empty fields).  Pure fragments of
the program (load_wiid_latest, load_subs, save_subs, the submit and admin-save
callbacks, the panel projections) become Lean functions over this model; the
persisted submissions file is threaded explicitly as an Option RawTable value
(none = file absent).
-/

namespace WiidApp

/-- Python str.lower / pandas str.lower, character by character (ASCII). -/
def pyLower (s : String) : String :=
  ⟨s.data.map Char.toLower⟩

/-- Python str.upper / pandas str.upper, character by character (ASCII). -/
def pyUpper (s : String) : String :=
  ⟨s.data.map Char.toUpper⟩

/-- Python str.strip: remove leading and trailing whitespace. -/
def pyTrim (s : String) : String :=
  ⟨((s.data.dropWhile Char.isWhitespace).reverse.dropWhile Char.isWhitespace).reverse⟩

/-- A cell of a parsed CSV table; none models a pandas NaN / missing value. -/
abbrev Cell := Option String

/-- A parsed delimited file: header names plus rows of cells aligned with the
headers by position. -/
structure RawTable where
  headers : List String
  rows : List (List Cell)
deriving DecidableEq, Repr

/-- A row given as a dict / record of named cells, as produced by the Dash
editable table (admin flow) before pandas reindexing. -/
abbrev DictRow := List (String × Cell)

/-- Column access on a raw row: position of the column name in the header list,
then the cell at that position (missing position or short row gives none). -/
def getCell (hs : List String) (r : List Cell) (c : String) : Cell :=
  match hs.findIdx? (fun h => h == c) with
  | some i => (r[i]?).join
  | none => none

/-- Value lookup in a dict row: first binding of the given column name. -/
def lookupCell (row : DictRow) (c : String) : Cell :=
  match row.find? (fun p => p.1 == c) with
  | some p => p.2
  | none => none

/-! ### First-run seeding (module-level block, app.py lines 31-38)

File contents are modelled as byte strings; the block copies the bundled seed
to the writable path only when the writable file does not exist and the seed
exists, and touches nothing otherwise. -/

/-- Seeding step: if the writable submissions file is absent and the repo seed
file exists, copy the seed bytes to the writable location; otherwise leave the
writable file as it is. -/
def seed_step (subsFile : Option String) (repoSeed : Option String) : Option String :=
  match subsFile, repoSeed with
  | none, some s => some s
  | w, _ => w

/-- The boot sequence runs the seeding block unconditionally: the READ_ONLY
flag (app.py line 25) is computed before the block but never consulted by it,
so it is an ignored argument here, exactly as in the source. -/
def boot_seed (readOnly : Bool) (subsFile repoSeed : Option String) : Option String :=
  seed_step subsFile repoSeed

/-! ### Submissions store (load_subs / save_subs, app.py lines 75-100) -/

/-- Canonical submissions columns, in the order fixed by the source. -/
def SUB_COLS : List String :=
  ["timestamp", "student_id", "country_iso3", "title",
   "summary_md", "evidence_links", "rating", "status"]

/-- A loaded submission row: the eight canonical columns.  All fields except
status are raw cells; status has been fillna-ed to the empty string and
lower-cased by load_subs, hence is a plain string. -/
structure SubRow where
  timestamp : Cell
  student_id : Cell
  country_iso3 : Cell
  title : Cell
  summary_md : Cell
  evidence_links : Cell
  rating : Cell
  status : String
deriving DecidableEq, Repr

/-- Cell access during load_subs: a canonical column absent from the stored
file is backfilled with the empty string (df[c] = ""). -/
def loadCell (hs : List String) (r : List Cell) (c : String) : Cell :=
  if hs.contains c then getCell hs r c else some ""

/-- One row of load_subs: select the canonical columns (backfilling missing
ones), then fillna("").str.lower() on status. -/
def loadRow (hs : List String) (r : List Cell) : SubRow :=
  { timestamp := loadCell hs r "timestamp"
    student_id := loadCell hs r "student_id"
    country_iso3 := loadCell hs r "country_iso3"
    title := loadCell hs r "title"
    summary_md := loadCell hs r "summary_md"
    evidence_links := loadCell hs r "evidence_links"
    rating := loadCell hs r "rating"
    status := pyLower ((loadCell hs r "status").getD "") }

/-- load_subs: an absent file yields the empty table (with the canonical
columns); otherwise every stored row is normalized by loadRow. -/
def load_subs (file : Option RawTable) : List SubRow :=
  match file with
  | none => []
  | some t => t.rows.map (loadRow t.headers)

/-- Effect of df.to_csv followed by pd.read_csv on one cell: a missing value is
written as an empty field, and an empty field is read back as NaN, so the
empty string and none collapse to none; any other string survives verbatim. -/
def writeCell (c : Cell) : Cell :=
  match c with
  | none => none
  | some s => if s = "" then none else some s

/-- pandas reindex(columns=SUB_COLS) on a dict row: exactly the canonical
columns in canonical order, missing keys becoming NaN, other keys dropped. -/
def reindexRow (row : DictRow) : List Cell :=
  SUB_COLS.map (lookupCell row)

/-- save_subs: in read-only mode refuse with the read-only message and touch
nothing; otherwise reindex the rows to the canonical columns and persist them
(the stored table is recorded after the to_csv / read_csv cell round trip). -/
def save_subs (readOnly : Bool) (rows : List DictRow) (file : Option RawTable) :
    (Bool × String) × Option RawTable :=
  if readOnly then ((false, "Read-only mode: saving disabled."), file)
  else ((true, "Saved to student_submissions.csv"),
        some { headers := SUB_COLS,
               rows := rows.map (fun r => (reindexRow r).map writeCell) })

/-! ### Submit callback (app.py lines 378-411) -/

/-- Python truthiness of an optional form value: None and the empty string are
falsy. -/
def truthy (v : Option String) : Bool :=
  match v with
  | none => false
  | some s => !(s == "")

/-- Python `value or default` for an optional string. -/
def pyOr (v : Option String) (d : String) : String :=
  match v with
  | none => d
  | some s => if s == "" then d else s

/-- The eight cells of a submission row in canonical column order, as they
appear in the dataframe handed to save_subs. -/
def rowCells (r : SubRow) : List Cell :=
  [r.timestamp, r.student_id, r.country_iso3, r.title,
   r.summary_md, r.evidence_links, r.rating, some r.status]

/-- A loaded row as a dict row (to_dict on a canonical-column dataframe). -/
def subRowToDict (r : SubRow) : DictRow :=
  SUB_COLS.zip (rowCells r)

/-- The entry dict built by the submit callback: timestamp is the current UTC
time, student_id / title are stripped, country_iso3 is stripped and
upper-cased, status defaults to pending and is lower-cased, a missing rating
becomes the empty string. -/
def submitEntry (now : String) (sid iso3 tit sum lnk : Option String)
    (rat : Option Nat) (st : Option String) : SubRow :=
  { timestamp := some now
    student_id := some (pyTrim (sid.getD ""))
    country_iso3 := some (pyUpper (pyTrim (iso3.getD "")))
    title := some (pyTrim (tit.getD ""))
    summary_md := some (sum.getD "")
    evidence_links := some (lnk.getD "")
    rating := some (match rat with | some n => toString n | none => "")
    status := pyLower (pyOr st "pending") }

/-- Outcome of the submit callback, mirroring the three alert shapes of the
source (read-only refusal, missing-field warning, save result). -/
inductive SubmitOutcome where
  | readOnlyMsg (msg : String)
  | missingMsg (missing : List String)
  | saveMsg (ok : Bool) (msg : String)
deriving DecidableEq, Repr

/-- The submit callback: refuse in read-only mode; report missing required
fields; otherwise load the current table, append the new entry last and write
the whole table back via save_subs. -/
def submit (readOnly : Bool) (now : String) (sid iso3 tit sum lnk : Option String)
    (rat : Option Nat) (st : Option String) (file : Option RawTable) :
    SubmitOutcome × Option RawTable :=
  if readOnly then (.readOnlyMsg "Read-only mode: submission disabled.", file)
  else
    let missing :=
      (if truthy iso3 then [] else ["Country ISO-3"]) ++
      (if truthy tit then [] else ["Title"]) ++
      (if truthy sum then [] else ["Summary"])
    if missing.isEmpty then
      let subs := load_subs file
      let entry := submitEntry now sid iso3 tit sum lnk rat st
      let res := save_subs readOnly ((subs ++ [entry]).map subRowToDict) file
      (.saveMsg res.1.1 res.1.2, res.2)
    else (.missingMsg missing, file)

/-! ### Reference dataset loader (load_wiid_latest, app.py lines 43-70)

Numeric cells are modelled as parsed decimal values.  pd.to_numeric with
errors="coerce" becomes a parser returning none on failure; the value is kept
as a sign / mantissa / decimal-places triple (PdNum), so that the Int64 cast
check (a float with a fractional part cannot be cast) and the integer value
are exact natural-number computations. -/

/-- A parsed decimal number d = (if neg then -1 else 1) * mant / 10 ^ fracLen,
the shape produced by parsing "123", "-4.5", "0.07", and so on. -/
structure PdNum where
  neg : Bool
  mant : Nat
  fracLen : Nat
deriving DecidableEq, Repr

/-- Numeric value of one decimal digit character. -/
def digitVal (c : Char) : Option Nat :=
  if c.isDigit then some (c.toNat - 48) else none

/-- Value of a digit string read most-significant first. -/
def digitsToNat (l : List Char) : Nat :=
  l.foldl (fun n c => n * 10 + (c.toNat - 48)) 0

/-- Parse an unsigned decimal literal: digits, optionally followed by a dot
and further digits, with at least one digit present overall. -/
def parseUnsigned (l : List Char) : Option PdNum :=
  let intPart := l.takeWhile Char.isDigit
  let rest := l.dropWhile Char.isDigit
  match rest with
  | [] =>
    if intPart.isEmpty then none
    else some { neg := false, mant := digitsToNat intPart, fracLen := 0 }
  | '.' :: rest2 =>
    let fracPart := rest2.takeWhile Char.isDigit
    let rest3 := rest2.dropWhile Char.isDigit
    if rest3.isEmpty && !(intPart.isEmpty && fracPart.isEmpty) then
      some { neg := false,
             mant := digitsToNat intPart * 10 ^ fracPart.length + digitsToNat fracPart,
             fracLen := fracPart.length }
    else none
  | _ => none

/-- pd.to_numeric(errors="coerce") on one string: strip surrounding
whitespace, allow an optional sign, parse a decimal literal; anything else
coerces to NaN (none).  Exponent and infinity forms are not used by the data
and are not modelled. -/
def pdToNumeric (s : String) : Option PdNum :=
  let l := (s.data.dropWhile Char.isWhitespace).reverse.dropWhile Char.isWhitespace
  match l.reverse with
  | '-' :: rest => (parseUnsigned rest).map (fun q => { q with neg := true })
  | '+' :: rest => parseUnsigned rest
  | other => parseUnsigned other

/-- Whether a parsed number has no fractional part, so that the pandas
astype("Int64") cast of the column succeeds at this value. -/
def pdIsIntegral (q : PdNum) : Bool :=
  q.mant % 10 ^ q.fracLen == 0

/-- Integer value of a parsed number (exact on integral values, which is the
only case reachable past the astype("Int64") guard). -/
def pdIntVal (q : PdNum) : Int :=
  if q.neg then -((q.mant / 10 ^ q.fracLen : Nat) : Int)
  else ((q.mant / 10 ^ q.fracLen : Nat) : Int)

/-- Python str() of a cell as pandas astype(str) applies it: a NaN cell
becomes the literal string "nan". -/
def pyStr (c : Cell) : String :=
  match c with
  | none => "nan"
  | some s => s

/-- Required reference-dataset columns, in the order fixed by the source. -/
def EXPECTED_COLS : List String :=
  ["country", "c3", "year", "gini", "resource",
   "scale_detailed", "incomegroup", "region_wb"]

/-- Header normalization of the reference loader: strip whitespace then
lower-case each column name. -/
def normalizeHeaders (hs : List String) : List String :=
  hs.map (fun c => pyLower (pyTrim c))

/-- A loaded reference record: the eight expected columns after coercion.
c3 is a plain string (astype(str) never fails), year an integer, gini a
parsed number; the remaining columns are passed through as raw cells. -/
structure RefRow where
  country : Cell
  c3 : String
  year : Int
  gini : PdNum
  resource : Cell
  scale_detailed : Cell
  incomegroup : Cell
  region_wb : Cell
deriving DecidableEq, Repr

/-- Errors of the reference loader: the schema check (which reports every
missing required column) and the astype("Int64") cast failure raised when
some year parses to a number with a fractional part. -/
inductive WiidError where
  | schemaMissing (missing : List String)
  | yearCast
deriving DecidableEq, Repr

/-- load_wiid_latest on a parsed table: normalize headers, fail listing all
missing required columns, coerce (c3 via astype(str).upper, year via
to_numeric + astype Int64 - raising on fractional values -, gini via
to_numeric), then drop the rows whose year or gini failed to parse (c3 can
no longer be missing after astype(str)) and keep the expected columns. -/
def load_wiid_latest (t : RawTable) : Except WiidError (List RefRow) :=
  let hs := normalizeHeaders t.headers
  let missing := EXPECTED_COLS.filter (fun c => decide (¬ c ∈ hs))
  if missing = [] then
    let years := t.rows.map (fun r => (getCell hs r "year").bind pdToNumeric)
    if years.all (fun y => y.all pdIsIntegral) then
      .ok (t.rows.filterMap (fun r =>
        match (getCell hs r "year").bind pdToNumeric,
              (getCell hs r "gini").bind pdToNumeric with
        | some yq, some gq => some
            { country := getCell hs r "country"
              c3 := pyUpper (pyStr (getCell hs r "c3"))
              year := pdIntVal yq
              gini := gq
              resource := getCell hs r "resource"
              scale_detailed := getCell hs r "scale_detailed"
              incomegroup := getCell hs r "incomegroup"
              region_wb := getCell hs r "region_wb" }
        | _, _ => none))
    else .error .yearCast
  else .error (.schemaMissing missing)

/-! ### Panel projections (update_panel, app.py lines 266-328) -/

/-- Two decimal digits. -/
def twoDigits (a b : Char) : Option Nat := do
  let x ← digitVal a
  let y ← digitVal b
  pure (10 * x + y)

/-- Time-of-day tail of a timestamp: empty, or a T or space separator
followed by HH:MM, optionally :SS, optionally a trailing Z.  Returns seconds
within the day. -/
def parseTsTail (rest : List Char) : Option Nat :=
  match rest with
  | [] => some 0
  | sep :: h1 :: h2 :: ':' :: m1 :: m2 :: rest2 =>
    if sep = 'T' ∨ sep = ' ' then do
      let h ← twoDigits h1 h2
      let mi ← twoDigits m1 m2
      if h ≤ 23 ∧ mi ≤ 59 then
        match rest2 with
        | [] => some (h * 3600 + mi * 60)
        | ['Z'] => some (h * 3600 + mi * 60)
        | ':' :: s1 :: s2 :: rest3 => do
          let sec ← twoDigits s1 s2
          if sec ≤ 59 ∧ (rest3 = [] ∨ rest3 = ['Z']) then
            some (h * 3600 + mi * 60 + sec)
          else none
        | _ => none
      else none
    else none
  | _ => none

/-- pd.to_datetime(errors="coerce") restricted to the ISO-like forms the app
produces ("YYYY-MM-DDTHH:MM:SSZ" from submit, "YYYY-MM-DD HH:MM" after
display reformatting, bare dates): the result is a chronotonic sort key in
seconds, none on anything unparsable. -/
def parseTs (s : String) : Option Nat :=
  match s.data with
  | y1 :: y2 :: y3 :: y4 :: '-' :: m1 :: m2 :: '-' :: d1 :: d2 :: rest => do
    let a ← digitVal y1
    let b ← digitVal y2
    let c ← digitVal y3
    let d ← digitVal y4
    let mo ← twoDigits m1 m2
    let da ← twoDigits d1 d2
    if 1 ≤ mo ∧ mo ≤ 12 ∧ 1 ≤ da ∧ da ≤ 31 then
      let t ← parseTsTail rest
      pure ((((1000 * a + 100 * b + 10 * c + d) * 12 + (mo - 1)) * 31 + (da - 1)) * 86400 + t)
    else none
  | _ => none

/-- Sort key of a submission row: its parsed timestamp (none = NaT). -/
def tsKey (r : SubRow) : Option Nat :=
  r.timestamp.bind parseTs

/-- Descending order on optional timestamp keys with missing values last,
matching sort_values(ascending=False) with the default na_position="last". -/
def optGe (a b : Option Nat) : Prop :=
  match a, b with
  | some x, some y => y ≤ x
  | some _, none => True
  | none, some _ => False
  | none, none => True

instance instDecOptGe : ∀ a b, Decidable (optGe a b) := fun a b =>
  match a, b with
  | some x, some y => inferInstanceAs (Decidable (y ≤ x))
  | some _, none => inferInstanceAs (Decidable True)
  | none, some _ => inferInstanceAs (Decidable False)
  | none, none => inferInstanceAs (Decidable True)

/-- An optional timestamp key strictly below a bound: an unparsable
timestamp counts as below every bound (it sorts after everything). -/
def optLt (o : Option Nat) (t0 : Nat) : Prop :=
  match o with
  | some t => t < t0
  | none => True

instance instDecOptLt : ∀ o t0, Decidable (optLt o t0) := fun o t0 =>
  match o with
  | some t => inferInstanceAs (Decidable (t < t0))
  | none => inferInstanceAs (Decidable True)

/-- Row order used by the panel: newer first, unparsable timestamps last. -/
def tsGe (a b : SubRow) : Prop :=
  optGe (tsKey a) (tsKey b)

instance : DecidableRel tsGe := fun a b => instDecOptGe (tsKey a) (tsKey b)

lemma optGe_total (a b : Option Nat) : optGe a b ∨ optGe b a := by
  cases a <;> cases b <;> simp [optGe]
  exact Nat.le_total _ _

lemma optGe_trans {a b c : Option Nat} (h1 : optGe a b) (h2 : optGe b c) :
    optGe a c := by
  cases a <;> cases b <;> cases c <;> simp [optGe] at * <;> omega

instance : IsTotal SubRow tsGe :=
  ⟨fun a b => optGe_total (tsKey a) (tsKey b)⟩

instance : IsTrans SubRow tsGe :=
  ⟨fun _ _ _ hab hbc => optGe_trans hab hbc⟩

/-- Rows of the submissions table for the clicked country: the verbatim
equality filter subs[subs["country_iso3"] == iso3] (a missing cell never
matches). -/
def filterIso (subs : List SubRow) (iso3 : String) : List SubRow :=
  subs.filter (fun r => r.country_iso3 == some iso3)

/-- The approved subset of the clicked country rows. -/
def approvedRows (subs : List SubRow) (iso3 : String) : List SubRow :=
  (filterIso subs iso3).filter (fun r => r.status == "approved")

/-- recentSubmissions: the clicked country rows sorted newest first
(unparsable timestamps last) and truncated to the first 12.  The later
projection to five display columns and timestamp reformatting is view-layer
formatting outside this model. -/
def recent_rows (subs : List SubRow) (iso3 : String) : List SubRow :=
  (List.insertionSort tsGe (filterIso subs iso3)).take 12

/-- featuredNote: the most recent approved row for the clicked country, none
when there is no approved row. -/
def featured_note (subs : List SubRow) (iso3 : String) : Option SubRow :=
  (List.insertionSort tsGe (approvedRows subs iso3)).head?

/-! ### Map overlay (update_panel, app.py lines 287-288) -/

/-- pandas Series.unique: first occurrences kept, later duplicates dropped;
seen accumulates the values already emitted. -/
def pdUniqueAux (seen : List String) : List String → List String
  | [] => []
  | a :: rest =>
    if seen.contains a then pdUniqueAux seen rest
    else a :: pdUniqueAux (a :: seen) rest

/-- De-duplication preserving first occurrences. -/
def pdUnique (l : List String) : List String :=
  pdUniqueAux [] l

/-- The overlay country list: subs["country_iso3"].dropna().str.upper()
.unique() - dropna removes only missing cells, not empty strings. -/
def overlay_iso (subs : List SubRow) : List String :=
  pdUnique ((subs.filterMap (fun r => r.country_iso3)).map pyUpper)

/-- Outcome of the admin save callback. -/
inductive AdminOutcome where
  | readOnlyMsg (msg : String)
  | noRows (msg : String)
  | saveMsg (ok : Bool) (msg : String)
deriving DecidableEq, Repr

/-- The admin save callback (replaceAll): refuse in read-only mode; warn when
the table state is absent; otherwise persist the edited rows as given. -/
def admin_save (readOnly : Bool) (rows : Option (List DictRow))
    (file : Option RawTable) : AdminOutcome × Option RawTable :=
  if readOnly then (.readOnlyMsg "Read-only mode: saving disabled.", file)
  else
    match rows with
    | none => (.noRows "No rows to save.", file)
    | some rs =>
      let res := save_subs readOnly rs file
      (.saveMsg res.1.1 res.1.2, res.2)

/-! ### Helper lemmas -/

/-- Effect of one full persist/reload cycle on a row: empty-string cells come
back as missing values (they are written as empty CSV fields, which read back
as NaN), every other cell survives verbatim, and status is lower-cased again
on read. -/
def rowRoundTrip (r : SubRow) : SubRow :=
  { timestamp := writeCell r.timestamp
    student_id := writeCell r.student_id
    country_iso3 := writeCell r.country_iso3
    title := writeCell r.title
    summary_md := writeCell r.summary_md
    evidence_links := writeCell r.evidence_links
    rating := writeCell r.rating
    status := pyLower ((writeCell (some r.status)).getD "") }

lemma loadRow_saved_row (r : SubRow) :
    loadRow SUB_COLS ((reindexRow (subRowToDict r)).map writeCell) = rowRoundTrip r := rfl

lemma map_of_forall₂ {α β γ : Type} {R : α → β → Prop} {f : α → γ} {g : β → γ}
    {l1 : List α} {l2 : List β} (h : List.Forall₂ R l1 l2)
    (hf : ∀ a b, R a b → f a = g b) : l1.map f = l2.map g := by
  induction h with
  | nil => rfl
  | cons hr _ ih => simp [List.map_cons, hf _ _ hr, ih]

/-! ### C2, C3, C9: read-only mode and seeding -/

/-- C2: in read-only mode, the submit callback (append), the admin save
callback (replaceAll) and save_subs itself all return their read-only error
result and leave the persisted submissions file exactly as it was (no write
happens: each function returns before any file operation). -/
theorem C2_read_only_mutations_fail (now : String)
    (sid iso3 tit sum lnk : Option String) (rat : Option Nat) (st : Option String)
    (rowsA : Option (List DictRow)) (rows : List DictRow) (file : Option RawTable) :
    submit true now sid iso3 tit sum lnk rat st file
        = (.readOnlyMsg "Read-only mode: submission disabled.", file)
    ∧ admin_save true rowsA file
        = (.readOnlyMsg "Read-only mode: saving disabled.", file)
    ∧ save_subs true rows file
        = ((false, "Read-only mode: saving disabled."), file) :=
  ⟨rfl, rfl, rfl⟩

/-- C3: the first-run seeding step never touches an existing writable file,
and it changes the writable location only by copying the seed there, which
requires the writable file to be absent and the seed to exist. -/
theorem C3_seeding_never_clobbers (w s : Option String) :
    (∀ b, w = some b → seed_step w s = some b)
    ∧ (seed_step w s ≠ w → w = none ∧ ∃ b, s = some b ∧ seed_step w s = some b) := by
  cases w <;> cases s <;> simp [seed_step]

theorem C3_witness : seed_step (some "existing data") (some "seed data") = some "existing data" :=
  (C3_seeding_never_clobbers (some "existing data") (some "seed data")).1 "existing data" rfl

/-- C9: the startup seeding block runs before any read-only check and never
consults the READ_ONLY flag: with the writable file absent and a seed
present, the seed is copied even in read-only mode, and the boot seeding
result is independent of the flag altogether. -/
theorem C9_seeding_ignores_read_only (ro : Bool) (b : String) (w s : Option String) :
    boot_seed ro none (some b) = some b ∧ boot_seed ro w s = boot_seed (!ro) w s :=
  ⟨rfl, rfl⟩

/-! ### C4: reference schema validation -/

/-- C4: when at least one required column is absent after header trimming and
lower-casing, the reference load returns a SchemaError naming exactly the
required columns that are missing, and produces no table (the module-level
call would raise and abort startup). -/
theorem C4_missing_columns_schema_error (t : RawTable) (c0 : String)
    (hreq : c0 ∈ EXPECTED_COLS) (habs : c0 ∉ normalizeHeaders t.headers) :
    ∃ missing, load_wiid_latest t = Except.error (WiidError.schemaMissing missing) ∧
      ∀ c, c ∈ missing ↔ (c ∈ EXPECTED_COLS ∧ c ∉ normalizeHeaders t.headers) := by
  refine ⟨EXPECTED_COLS.filter (fun c => decide (¬ c ∈ normalizeHeaders t.headers)), ?_, ?_⟩
  · have hne : EXPECTED_COLS.filter (fun c => decide (¬ c ∈ normalizeHeaders t.headers)) ≠ [] :=
      List.ne_nil_of_mem (List.mem_filter.mpr ⟨hreq, decide_eq_true habs⟩)
    simp only [load_wiid_latest]
    rw [if_neg hne]
  · intro c
    simp [List.mem_filter]

def c4File : RawTable :=
  { headers := ["country", "c3", "year", "resource", "scale_detailed", "incomegroup", "region_wb"],
    rows := [] }

theorem C4_witness :
    ∃ missing, load_wiid_latest c4File = Except.error (WiidError.schemaMissing missing) ∧
      ∀ c, c ∈ missing ↔ (c ∈ EXPECTED_COLS ∧ c ∉ normalizeHeaders c4File.headers) :=
  C4_missing_columns_schema_error c4File "gini" (by decide) (by decide)

/-! ### C5: reference row filtering -/

/-- Whether the year cell of a raw row is safe for the astype("Int64") cast:
either it does not parse at all (NaN casts fine) or it parses to a number
without a fractional part. -/
def yearCellOk (hs : List String) (r : List Cell) : Prop :=
  ((getCell hs r "year").bind pdToNumeric).all pdIsIntegral = true

instance instDecYearCellOk (hs : List String) (r : List Cell) :
    Decidable (yearCellOk hs r) :=
  inferInstanceAs (Decidable (((getCell hs r "year").bind pdToNumeric).all pdIsIntegral = true))

/-- Row-level statement of the amended C5 load semantics: a row is kept
exactly when its year and gini cells both parse numerically (a missing cell
parses to NaN and fails); a kept row has c3 stringified (a missing c3
becoming "nan") and upper-cased, year and gini replaced by their parsed
values, and the remaining columns passed through verbatim. -/
def spec5Row (hs : List String) (r : List Cell) : Option RefRow :=
  match (getCell hs r "year").bind pdToNumeric,
        (getCell hs r "gini").bind pdToNumeric with
  | some yq, some gq => some
      { country := getCell hs r "country"
        c3 := pyUpper (pyStr (getCell hs r "c3"))
        year := pdIntVal yq
        gini := gq
        resource := getCell hs r "resource"
        scale_detailed := getCell hs r "scale_detailed"
        incomegroup := getCell hs r "incomegroup"
        region_wb := getCell hs r "region_wb" }
  | _, _ => none

/-- C5 (amended): with all required headers present, the load succeeds
exactly when no year cell parses to a fractional number (otherwise the
astype("Int64") cast raises and no table is produced); on success the table
is the row-wise filter-map spec5Row: rows are dropped exactly when year or
gini fails to parse, and c3 - which can no longer be missing after
astype(str) - never causes a drop, a missing c3 surfacing as the literal
string "NAN". -/
theorem C5_kept_rows (t : RawTable)
    (hcols : ∀ c ∈ EXPECTED_COLS, c ∈ normalizeHeaders t.headers) :
    ((∀ r ∈ t.rows, yearCellOk (normalizeHeaders t.headers) r) →
        load_wiid_latest t
          = Except.ok (t.rows.filterMap (spec5Row (normalizeHeaders t.headers))))
    ∧ ((∃ r ∈ t.rows, ¬ yearCellOk (normalizeHeaders t.headers) r) →
        load_wiid_latest t = Except.error WiidError.yearCast)
    ∧ (∀ r, spec5Row (normalizeHeaders t.headers) r = none ↔
          ((getCell (normalizeHeaders t.headers) r "year").bind pdToNumeric = none
            ∨ (getCell (normalizeHeaders t.headers) r "gini").bind pdToNumeric = none))
    ∧ (∀ r rr, spec5Row (normalizeHeaders t.headers) r = some rr →
          getCell (normalizeHeaders t.headers) r "c3" = none → rr.c3 = "NAN") := by
  have hmiss : EXPECTED_COLS.filter
      (fun c => decide (¬ c ∈ normalizeHeaders t.headers)) = [] := by
    rw [List.filter_eq_nil_iff]
    intro c hc
    simp [hcols c hc]
  refine ⟨?_, ?_, ?_, ?_⟩
  · intro hall
    have hys : ((t.rows.map
        (fun r => (getCell (normalizeHeaders t.headers) r "year").bind pdToNumeric)).all
          (fun y => y.all pdIsIntegral)) = true := by
      rw [List.all_eq_true]
      intro y hy
      rcases List.mem_map.mp hy with ⟨r, hr, rfl⟩
      exact hall r hr
    simp only [load_wiid_latest, hmiss, if_pos]
    rw [if_pos hys]
    rfl
  · rintro ⟨r, hr, hbad⟩
    have hys : ¬ ((t.rows.map
        (fun r => (getCell (normalizeHeaders t.headers) r "year").bind pdToNumeric)).all
          (fun y => y.all pdIsIntegral)) = true := by
      intro hcontra
      exact hbad (List.all_eq_true.mp hcontra _
        (List.mem_map.mpr ⟨r, hr, rfl⟩))
    simp only [load_wiid_latest, hmiss, if_pos]
    rw [if_neg hys]
  · intro r
    unfold spec5Row
    cases hy : (getCell (normalizeHeaders t.headers) r "year").bind pdToNumeric <;>
      cases hg : (getCell (normalizeHeaders t.headers) r "gini").bind pdToNumeric <;>
      simp
  · intro r rr hsome hc3
    unfold spec5Row at hsome
    revert hsome
    cases hy : (getCell (normalizeHeaders t.headers) r "year").bind pdToNumeric <;>
      cases hg : (getCell (normalizeHeaders t.headers) r "gini").bind pdToNumeric <;>
      intro hsome <;> simp at hsome
    rw [← hsome, hc3]
    rfl

def c5TableA : RawTable :=
  { headers := EXPECTED_COLS,
    rows := [[some "Atlantis", none, some "2001", some "30",
              some "x", some "y", some "z", some "w"]] }

def c5RowA : RefRow :=
  { country := some "Atlantis", c3 := "NAN", year := 2001,
    gini := { neg := false, mant := 30, fracLen := 0 },
    resource := some "x", scale_detailed := some "y",
    incomegroup := some "z", region_wb := some "w" }

def c5TableB : RawTable :=
  { headers := EXPECTED_COLS,
    rows := [[some "Argentina", some "ARG", some "2001.5", some "30",
              some "x", some "y", some "z", some "w"],
             [some "Brazil", some "BRA", some "2000", some "31",
              some "x", some "y", some "z", some "w"]] }

/-- C5 counterexample: the claim as stated fails twice on the code.  In
c5TableA the only row has a missing c3 (iso3) cell, so by the claim it must
be dropped, yet the load keeps it (astype(str) turns the missing c3 into the
string "NAN", so the dropna on c3 never fires).  In c5TableB the first row
has year "2001.5", which fails to parse as an integer, so by the claim that
row alone is dropped and the Brazil row kept - but the astype("Int64") cast
raises instead and the whole load fails, producing no table at all. -/
theorem C5_counterexample :
    (load_wiid_latest c5TableA = Except.ok [c5RowA] ∧ c5RowA.c3 = "NAN")
    ∧ load_wiid_latest c5TableB = Except.error WiidError.yearCast :=
  ⟨⟨rfl, rfl⟩, rfl⟩

def c5TableC : RawTable :=
  { headers := ["Country", "C3 ", "Year", "Gini", "Resource",
                "Scale_detailed", "IncomeGroup", "Region_WB"],
    rows := [[some "Argentina", some "arg", some "2001", some "32.5",
              some "x", some "y", some "z", some "w"],
             [some "Nowhere", some "NWH", some "unknown", some "31",
              some "x", some "y", some "z", some "w"]] }

theorem C5_witness :
    load_wiid_latest c5TableC
      = Except.ok (c5TableC.rows.filterMap (spec5Row (normalizeHeaders c5TableC.headers))) :=
  (C5_kept_rows c5TableC (by decide)).1 (by decide)

/-! ### C1: append then load -/

def c1xFile : Option RawTable :=
  some { headers := ["timestamp", "country_iso3", "title", "summary_md",
                     "evidence_links", "rating", "status"],
         rows := [[some "2024-01-01T00:00:00Z", some "ARG", some "Old",
                   some "S", some "L", some "3", some "approved"]] }

/-- C1 counterexample: the prior stored file lacks the student_id column and
the submitted title is " T ".  The claim as stated requires the appended row
to keep the title verbatim (" T ") and the preceding row to be the prior
table unchanged (whose loaded student_id is the backfilled empty string).
The code strips the title to "T", and the empty-string student_id cells come
back as missing values after the rewrite, so both parts fail. -/
theorem C1_counterexample :
    ((load_subs (submit false "2024-02-02T03:04:05Z" none (some "arg") (some " T ")
        (some "Hello") none (some 4) (some "pending") c1xFile).2).map SubRow.title)
      = [some "Old", some "T"]
    ∧ (some " T " : Cell) ≠ some "T"
    ∧ ((load_subs c1xFile).map SubRow.student_id) = [some ""]
    ∧ ((load_subs (submit false "2024-02-02T03:04:05Z" none (some "arg") (some " T ")
        (some "Hello") none (some 4) (some "pending") c1xFile).2).map SubRow.student_id)
      = [none, none] :=
  ⟨rfl, by decide, rfl, rfl⟩

/-- C1 (amended): in writable mode, once the submit validation passes (iso3,
title and summary truthy), appending and reloading yields the prior table
followed by the new entry, in order, where the entry has countryIso3
stripped and upper-cased, studentId and title stripped, status defaulted to
pending and lower-cased (submitEntry), and where every row - prior rows
included - undergoes the cell round trip: empty-string cells are written as
empty fields and read back as missing values, all other cells byte-for-byte
verbatim (rowRoundTrip). -/
theorem C1_append_then_load (file : Option RawTable) (now : String)
    (sid iso3 tit sum lnk : Option String) (rat : Option Nat) (st : Option String)
    (h1 : truthy iso3 = true) (h2 : truthy tit = true) (h3 : truthy sum = true) :
    load_subs (submit false now sid iso3 tit sum lnk rat st file).2
      = (load_subs file).map rowRoundTrip
        ++ [rowRoundTrip (submitEntry now sid iso3 tit sum lnk rat st)] := by
  have hmiss : ((if truthy iso3 then [] else ["Country ISO-3"])
      ++ (if truthy tit then [] else ["Title"])
      ++ (if truthy sum then [] else ["Summary"])) = ([] : List String) := by
    rw [h1, h2, h3]
    rfl
  simp only [submit, hmiss, Bool.false_eq_true, if_false, List.isEmpty_nil, if_true,
    save_subs, load_subs]
  rw [List.map_map, List.map_map, List.map_append]
  simp only [Function.comp_def, loadRow_saved_row]
  rfl

def c1File : Option RawTable :=
  some { headers := SUB_COLS,
         rows := [[some "2024-01-01T00:00:00Z", some "s9", some "BRA", some "Old",
                   some "S", some "L", some "3", some "approved"]] }

theorem C1_witness :
    load_subs (submit false "2024-02-02T03:04:05Z" (some "s1") (some "arg")
        (some "My Title") (some "Sum") none (some 4) (some "PENDING") c1File).2
      = (load_subs c1File).map rowRoundTrip
        ++ [rowRoundTrip (submitEntry "2024-02-02T03:04:05Z" (some "s1") (some "arg")
            (some "My Title") (some "Sum") none (some 4) (some "PENDING"))] :=
  C1_append_then_load c1File "2024-02-02T03:04:05Z" (some "s1") (some "arg")
    (some "My Title") (some "Sum") none (some 4) (some "PENDING") rfl rfl rfl

/-! ### C6, C7: featured note and recent submissions -/

lemma sorted_head_max {l l2 : List SubRow} {r0 : SubRow} {t0 : Nat}
    (hperm : List.Perm l2 l) (hsort : List.Sorted tsGe l2)
    (hmem : r0 ∈ l) (hk : tsKey r0 = some t0)
    (hmax : ∀ r ∈ l, r = r0 ∨ optLt (tsKey r) t0) :
    l2.head? = some r0 := by
  cases l2 with
  | nil =>
    exact absurd (hperm.mem_iff.mpr hmem) (List.not_mem_nil r0)
  | cons a tl =>
    simp only [List.head?_cons]
    by_cases ha : a = r0
    · rw [ha]
    · have hal : a ∈ l := hperm.subset (List.mem_cons_self a tl)
      have hlt : optLt (tsKey a) t0 := (hmax a hal).resolve_left ha
      have hr0 : r0 ∈ tl := by
        rcases List.mem_cons.mp (hperm.mem_iff.mpr hmem) with he | h
        · exact absurd he.symm ha
        · exact h
      have hge : tsGe a r0 := (List.sorted_cons.mp hsort).1 r0 hr0
      unfold tsGe at hge
      rw [hk] at hge
      cases hka : tsKey a with
      | none =>
        rw [hka] at hge
        simp [optGe] at hge
      | some x =>
        rw [hka] at hge hlt
        simp only [optGe] at hge
        simp only [optLt] at hlt
        omega

/-- C6: the featured note is none exactly when the clicked country has no
approved submission, and whenever one approved row for the country carries a
parsable timestamp strictly later than every other approved row for the
country, the featured note is that row. -/
theorem C6_featured_note (subs : List SubRow) (iso3 : String) :
    (approvedRows subs iso3 = [] → featured_note subs iso3 = none)
    ∧ (∀ r0 t0, r0 ∈ approvedRows subs iso3 → tsKey r0 = some t0 →
        (∀ r ∈ approvedRows subs iso3, r = r0 ∨ optLt (tsKey r) t0) →
        featured_note subs iso3 = some r0) := by
  constructor
  · intro h
    unfold featured_note
    rw [h]
    rfl
  · intro r0 t0 hmem hk hmax
    unfold featured_note
    exact sorted_head_max (List.perm_insertionSort tsGe (approvedRows subs iso3))
      (List.sorted_insertionSort tsGe (approvedRows subs iso3)) hmem hk hmax

def c6r1 : SubRow :=
  { timestamp := some "2024-01-01T10:00:00Z", student_id := some "a",
    country_iso3 := some "ARG", title := some "t1", summary_md := some "s",
    evidence_links := none, rating := some "3", status := "pending" }

def c6r2 : SubRow :=
  { timestamp := some "2024-01-02T10:00:00Z", student_id := some "b",
    country_iso3 := some "ARG", title := some "t2", summary_md := some "s",
    evidence_links := none, rating := some "4", status := "approved" }

def c6r3 : SubRow :=
  { timestamp := some "2024-01-03T10:00:00Z", student_id := some "c",
    country_iso3 := some "ARG", title := some "t3", summary_md := some "s",
    evidence_links := none, rating := some "5", status := "approved" }

theorem C6_witness : featured_note [c6r1, c6r2, c6r3] "ARG" = some c6r3 :=
  (C6_featured_note [c6r1, c6r2, c6r3] "ARG").2 c6r3 65053188000
    (by decide) (by decide) (by decide)

/-- C7: the recent-submissions list is obtained from the rows whose
countryIso3 equals the selected iso3 by passing to a permutation sorted by
timestamp descending with unparsable timestamps last, then truncating to the
first 12. -/
theorem C7_recent_rows (subs : List SubRow) (iso3 : String) :
    ∃ l, List.Perm (filterIso subs iso3) l ∧ List.Sorted tsGe l ∧
      recent_rows subs iso3 = l.take 12 :=
  ⟨List.insertionSort tsGe (filterIso subs iso3),
   (List.perm_insertionSort tsGe (filterIso subs iso3)).symm,
   List.sorted_insertionSort tsGe (filterIso subs iso3), rfl⟩

/-! ### C8: map overlay -/

lemma mem_pdUniqueAux (l : List String) :
    ∀ (seen : List String) (s : String),
      s ∈ pdUniqueAux seen l ↔ (s ∈ l ∧ ¬ s ∈ seen) := by
  induction l with
  | nil =>
    intro seen s
    simp [pdUniqueAux]
  | cons a rest ih =>
    intro seen s
    by_cases hc : seen.contains a
    · have ha : a ∈ seen := by simpa using hc
      simp only [pdUniqueAux]
      rw [if_pos hc, ih seen s, List.mem_cons]
      constructor
      · rintro ⟨hr, hs⟩
        exact ⟨Or.inr hr, hs⟩
      · rintro ⟨hr, hs⟩
        rcases hr with he | hr
        · exact absurd (he ▸ ha) hs
        · exact ⟨hr, hs⟩
    · have ha : ¬ a ∈ seen := by simpa using hc
      simp only [pdUniqueAux]
      rw [if_neg hc]
      simp only [List.mem_cons, ih (a :: seen) s, List.mem_cons]
      by_cases hsa : s = a
      · subst hsa
        simp [ha]
      · simp [hsa]

lemma nodup_pdUniqueAux (l : List String) :
    ∀ seen, (pdUniqueAux seen l).Nodup := by
  induction l with
  | nil =>
    intro seen
    simp [pdUniqueAux]
  | cons a rest ih =>
    intro seen
    by_cases hc : seen.contains a
    · simp only [pdUniqueAux]
      rw [if_pos hc]
      exact ih seen
    · simp only [pdUniqueAux]
      rw [if_neg hc]
      refine List.nodup_cons.mpr ⟨?_, ih (a :: seen)⟩
      intro hmem
      exact ((mem_pdUniqueAux rest (a :: seen) a).mp hmem).2 (List.mem_cons_self a seen)

def c8File : Option RawTable :=
  some { headers := ["timestamp"], rows := [[some "2024-01-01"]] }

/-- C8 counterexample: loading a stored file that lacks the country_iso3
column backfills the column with the empty string; dropna removes only
missing values, not empty strings, so the overlay list is [""] - an empty
value - contradicting the claim that the overlay holds only non-empty
iso3 values. -/
theorem C8_counterexample :
    overlay_iso (load_subs c8File) = [""]
    ∧ ¬ (∀ s ∈ overlay_iso (load_subs c8File), s ≠ "") :=
  ⟨rfl, by decide⟩

/-- C8 (amended): the overlay list has no duplicates and contains exactly
the upper-casings of the non-null countryIso3 values occurring in any
submission row - including the empty string when a row carries an empty
(but present) iso3 cell - independently of every row status. -/
theorem C8_overlay_countries (subs : List SubRow) :
    (overlay_iso subs).Nodup
    ∧ ∀ s, (s ∈ overlay_iso subs ↔
        ∃ v, (∃ r ∈ subs, r.country_iso3 = some v) ∧ s = pyUpper v) := by
  constructor
  · exact nodup_pdUniqueAux _ []
  · intro s
    unfold overlay_iso pdUnique
    rw [mem_pdUniqueAux]
    simp only [List.mem_map, List.mem_filterMap, List.not_mem_nil, not_false_iff, and_true]
    constructor
    · rintro ⟨v, ⟨r, hr, hv⟩, hs⟩
      exact ⟨v, ⟨r, hr, hv⟩, hs.symm⟩
    · rintro ⟨v, ⟨r, hr, hv⟩, hs⟩
      exact ⟨v, ⟨r, hr, hv⟩, hs.symm⟩

def c8wr1 : SubRow :=
  { timestamp := none, student_id := none, country_iso3 := some "arg",
    title := none, summary_md := none, evidence_links := none,
    rating := none, status := "pending" }

def c8wr2 : SubRow :=
  { timestamp := none, student_id := none, country_iso3 := some "ARG",
    title := none, summary_md := none, evidence_links := none,
    rating := none, status := "approved" }

def c8wr3 : SubRow :=
  { timestamp := none, student_id := none, country_iso3 := some "bra",
    title := none, summary_md := none, evidence_links := none,
    rating := none, status := "rejected" }

theorem C8_witness :
    (overlay_iso [c8wr1, c8wr2, c8wr3]).Nodup
    ∧ ("BRA" ∈ overlay_iso [c8wr1, c8wr2, c8wr3]) :=
  ⟨(C8_overlay_countries [c8wr1, c8wr2, c8wr3]).1,
   ((C8_overlay_countries [c8wr1, c8wr2, c8wr3]).2 "BRA").mpr
     ⟨"bra", ⟨c8wr3, by decide, rfl⟩, rfl⟩⟩

/-! ### C10: canonical columns everywhere -/

/-- C10: a successful save always persists a table whose columns are exactly
the eight canonical ones in canonical order (every stored row having exactly
eight cells); the persisted content depends only on the canonical cells of
the rows passed in (extra dict keys are discarded by the reindex); a loaded
table depends only on the canonical cells of the stored file (extra stored
columns are discarded); and every loaded row presents exactly the canonical
columns in canonical order. -/
theorem C10_canonical_columns :
    (∀ rows file t2, (save_subs false rows file).2 = some t2 →
        t2.headers = SUB_COLS ∧ ∀ r ∈ t2.rows, r.length = SUB_COLS.length)
    ∧ (∀ rows rows2 : List DictRow, ∀ file file2 : Option RawTable,
        List.Forall₂ (fun r r2 => ∀ c ∈ SUB_COLS, lookupCell r c = lookupCell r2 c)
          rows rows2 →
        (save_subs false rows file).2 = (save_subs false rows2 file2).2)
    ∧ (∀ t t2 : RawTable,
        List.Forall₂
          (fun r r2 => ∀ c ∈ SUB_COLS, loadCell t.headers r c = loadCell t2.headers r2 c)
          t.rows t2.rows →
        load_subs (some t) = load_subs (some t2))
    ∧ (∀ r : SubRow, (subRowToDict r).map Prod.fst = SUB_COLS) := by
  refine ⟨?_, ?_, ?_, ?_⟩
  · intro rows file t2 h
    simp only [save_subs, Bool.false_eq_true, if_false, Option.some.injEq] at h
    rw [← h]
    refine ⟨rfl, ?_⟩
    intro r hr
    rcases List.mem_map.mp hr with ⟨r2, _, rfl⟩
    simp [reindexRow]
  · intro rows rows2 file file2 hf
    simp only [save_subs, Bool.false_eq_true, if_false, Option.some.injEq, RawTable.mk.injEq,
      true_and]
    apply map_of_forall₂ hf
    intro a b hab
    have : reindexRow a = reindexRow b := List.map_congr_left (fun c hc => hab c hc)
    rw [this]
  · intro t t2 hf
    simp only [load_subs]
    apply map_of_forall₂ hf
    intro a b hab
    unfold loadRow
    rw [hab "timestamp" (by decide), hab "student_id" (by decide),
      hab "country_iso3" (by decide), hab "title" (by decide),
      hab "summary_md" (by decide), hab "evidence_links" (by decide),
      hab "rating" (by decide), hab "status" (by decide)]
  · intro r
    rfl

def c10RowA : DictRow :=
  [("extra_column", some "x"), ("title", some "T"), ("status", some "approved")]

def c10RowB : DictRow :=
  [("title", some "T"), ("status", some "approved")]

theorem C10_witness :
    (save_subs false [c10RowA] none).2 = (save_subs false [c10RowB] none).2 :=
  C10_canonical_columns.2.1 [c10RowA] [c10RowB] none none
    (List.Forall₂.cons (by decide) List.Forall₂.nil)

end WiidApp
